import Mathlib

/-!
# Packet-filter marshalling helpers (`vendor/github.com/datawire/pf/helpers.h`)

A shallow embedding of the C helpers that stamp and read the port fields of
`struct pf_rule_addr` and `struct pfioc_natlook`, together with the two
byte-order wrappers `htons_f` / `ntohs_f`.

Conventions of the embedding:

* `u_int16_t` and `u_int8_t` values are natural numbers; a theorem that needs
  the width says so with a hypothesis `v < 65536` (resp. `b < 256`).
* a C function that mutates the structure behind its pointer argument is a
  function returning the updated structure;
* the array subscript `port[index]` with `index : int` is an access that is
  defined only inside the array: the model returns `none` where C has no
  defined behaviour.
-/

namespace Pf

/-! ## Byte order -/

/-- Byte order of the host the helpers are compiled for (the C `BYTE_ORDER`). -/
inductive byte_order where
  | BIG_ENDIAN
  | LITTLE_ENDIAN
deriving DecidableEq

/-- Modelled from the spec: `htons` is the C library conversion that
`htons_f` calls; it is not defined in `helpers.h`.  "On an
already-network-order host, both functions are identity; on a swapped-order
host, both reverse the two byte positions."  The low byte of a value is
`v % 256`, its high byte `v / 256 % 256`. -/
def htons (host : byte_order) (hostshort : Nat) : Nat :=
  match host with
  | .BIG_ENDIAN => hostshort
  | .LITTLE_ENDIAN => (hostshort % 256) * 256 + (hostshort / 256) % 256

/-- Modelled from the spec: `ntohs` is the C library conversion that
`ntohs_f` calls; it is not defined in `helpers.h`.  Identity on a
network-order host, exchange of the two bytes on a swapped-order host. -/
def ntohs (host : byte_order) (netshort : Nat) : Nat :=
  match host with
  | .BIG_ENDIAN => netshort
  | .LITTLE_ENDIAN => (netshort % 256) * 256 + (netshort / 256) % 256

/-- Source: `static u_int16_t htons_f(u_int16_t hostshort) { return htons(hostshort); }` -/
def htons_f (host : byte_order) (hostshort : Nat) : Nat :=
  htons host hostshort

/-- Source: `static u_int16_t ntohs_f(u_int16_t netshort) { return ntohs(netshort); }` -/
def ntohs_f (host : byte_order) (netshort : Nat) : Nat :=
  ntohs host netshort

/-! ## Rule address -/

/-- Modelled from the spec: the member `u_int16_t port[2]` of the port range,
declared in the packet filter's system header and not in `helpers.h`: "one of
exactly two ports stored in a rule address's port-range field". -/
structure port_array where
  elems : List Nat
  size_eq : elems.length = 2
deriving DecidableEq

/-- The C read `port[index]` with `index : int`: defined exactly when the
subscript falls inside the array, `none` otherwise. -/
def port_array.read (a : port_array) (index : Int) : Option Nat :=
  if index < 0 then none else a.elems[index.toNat]?

/-- The C assignment `port[index] = value` with `index : int`: defined exactly
when the subscript falls inside the array, `none` otherwise. -/
def port_array.write (a : port_array) (index : Int) (value : Nat) : Option port_array :=
  if 0 ≤ index ∧ index.toNat < a.elems.length then
    some ⟨a.elems.set index.toNat value, by rw [List.length_set]; exact a.size_eq⟩
  else
    none

/-- Modelled from the spec: `struct pf_port_range`, declared in the system
header: "a port-range sub-structure containing the two Port Slots (in wire
order) and one Port Match Operator byte". -/
structure pf_port_range where
  port : port_array
  op : Nat
deriving DecidableEq

/-- Modelled from the spec: the member `xport` of a rule address, of which the
helpers use the `range` view only. -/
structure pf_rule_xport where
  range : pf_port_range
deriving DecidableEq

/-- Modelled from the spec: `struct pf_rule_addr`, declared in the system
header: "a firewall rule's address-matching specification; owns a port-range
sub-structure".  `addr` and `neg` stand for the address-matching members,
which no helper reads or writes. -/
structure pf_rule_addr where
  addr : Nat
  xport : pf_rule_xport
  neg : Nat
deriving DecidableEq

/-- A zero-initialised rule address (`struct pf_rule_addr a = {0}`). -/
def pf_rule_addr.zero : pf_rule_addr :=
  { addr := 0, xport := { range := { port := ⟨[0, 0], rfl⟩, op := 0 } }, neg := 0 }

/-- Modelled from the spec: the operator code "equals" of the system header's
port-operator enumeration (`PF_OP_NONE, PF_OP_IRG, PF_OP_EQ, ...`). -/
def PF_OP_EQ : Nat := 2

/-- Source: `static void set_addr_port(struct pf_rule_addr *addr, int index, u_int16_t value)`
with body `addr->xport.range.port[index] = value;`. -/
def set_addr_port (addr : pf_rule_addr) (index : Int) (value : Nat) : Option pf_rule_addr :=
  (addr.xport.range.port.write index value).map fun p =>
    { addr with xport := { addr.xport with range := { addr.xport.range with port := p } } }

/-- Source: `static u_int16_t get_addr_port(struct pf_rule_addr *addr, int index)`
with body `return addr->xport.range.port[index];`. -/
def get_addr_port (addr : pf_rule_addr) (index : Int) : Option Nat :=
  addr.xport.range.port.read index

/-- Source: `static void set_addr_port_op(struct pf_rule_addr *addr, u_int8_t op)`
with body `addr->xport.range.op = op;`. -/
def set_addr_port_op (addr : pf_rule_addr) (op : Nat) : pf_rule_addr :=
  { addr with xport := { addr.xport with range := { addr.xport.range with op := op } } }

/-- Source: `static u_int8_t get_addr_port_op(struct pf_rule_addr *addr)`
with body `return addr->xport.range.op;`. -/
def get_addr_port_op (addr : pf_rule_addr) : Nat :=
  addr.xport.range.op

/-! ## NAT lookup -/

/-- Modelled from the spec: the port member of a NAT-lookup record, of which
the helpers use the `port` view only. -/
structure pf_state_xport where
  port : Nat
deriving DecidableEq

/-- Modelled from the spec: `struct pfioc_natlook`, declared in the system
header: "a single structure reused as both request (caller fills source port,
destination port, and implicitly source/destination addresses via external
means) and response (kernel fills a redirected destination port)".  The
address and protocol members are never touched by the helpers. -/
structure pfioc_natlook where
  saddr : Nat
  daddr : Nat
  rsaddr : Nat
  rdaddr : Nat
  sxport : pf_state_xport
  dxport : pf_state_xport
  rsxport : pf_state_xport
  rdxport : pf_state_xport
  af : Nat
  proto : Nat
  direction : Nat
deriving DecidableEq

/-- A zero-initialised NAT-lookup record (`struct pfioc_natlook q = {0}`). -/
def pfioc_natlook.zero : pfioc_natlook :=
  { saddr := 0, daddr := 0, rsaddr := 0, rdaddr := 0,
    sxport := ⟨0⟩, dxport := ⟨0⟩, rsxport := ⟨0⟩, rdxport := ⟨0⟩,
    af := 0, proto := 0, direction := 0 }

/-- Source: `static void set_natlook_sport(struct pfioc_natlook *pnl, u_int16_t port)`
with body `pnl->sxport.port = port;`. -/
def set_natlook_sport (pnl : pfioc_natlook) (port : Nat) : pfioc_natlook :=
  { pnl with sxport := { pnl.sxport with port := port } }

/-- Source: `static void set_natlook_dport(struct pfioc_natlook *pnl, u_int16_t port)`
with body `pnl->dxport.port = port;`. -/
def set_natlook_dport (pnl : pfioc_natlook) (port : Nat) : pfioc_natlook :=
  { pnl with dxport := { pnl.dxport with port := port } }

/-- Source: `static u_int16_t get_natlook_rdport(struct pfioc_natlook *pnl)`
with body `return pnl->rdxport.port;`. -/
def get_natlook_rdport (pnl : pfioc_natlook) : Nat :=
  pnl.rdxport.port

/-- Modelled from the spec: the external kernel step of a lookup, "simulate
kernel writing redirect field": the record with `rdxport.port` overwritten by
the wire-order value `v`. -/
def kernel_fill_rdport (pnl : pfioc_natlook) (v : Nat) : pfioc_natlook :=
  { pnl with rdxport := { pnl.rdxport with port := v } }

/-! ## Address text buffer -/

/-- Modelled from the spec: the constant `INET_ADDRSTRLEN` of the system
header `<netinet/in.h>`, not defined in `helpers.h`: the "fixed capacity" of
the address text buffer, "the maximum textual length of a supported address
family's printable form (including null terminator)", 16 for IPv4. -/
def INET_ADDRSTRLEN : Nat := 16

/-- Source: `struct pton_addr { char value[INET_ADDRSTRLEN]; };`, a character
array of exactly `INET_ADDRSTRLEN` elements. -/
structure pton_addr where
  value : List Char
  size_eq : value.length = INET_ADDRSTRLEN

/-- Source: `static char *get_pton_addr(struct pton_addr *addr)` with body
`return addr->value;`: the storage of the buffer. -/
def get_pton_addr (addr : pton_addr) : List Char :=
  addr.value

/-- Modelled from the spec: the printable form of an IPv4 address, written by
the external address-conversion routine: the four octets in decimal, without
leading zeros, separated by dots. -/
def dotted_decimal (a b c d : Nat) : List Char :=
  Nat.toDigits 10 a ++ '.' :: Nat.toDigits 10 b ++ '.' :: Nat.toDigits 10 c
    ++ '.' :: Nat.toDigits 10 d

/-! ## Arithmetic of the byte exchange -/

/-- Exchanging the two bytes of a 16-bit value twice gives the value back. -/
theorem swap_bytes_involutive (v : Nat) (hv : v < 65536) :
    ((v % 256) * 256 + (v / 256) % 256) % 256 * 256
      + ((v % 256) * 256 + (v / 256) % 256) / 256 % 256 = v := by
  have hhi : v / 256 % 256 = v / 256 := Nat.mod_eq_of_lt (by omega)
  rw [hhi]
  have h1 : ((v % 256) * 256 + v / 256) % 256 = v / 256 := by omega
  have h2 : ((v % 256) * 256 + v / 256) / 256 = v % 256 := by omega
  rw [h1, h2]
  omega

/-! ## The two-element port array -/

/-- A port array is a pair of values. -/
theorem port_array.eq_pair (a : port_array) :
    ∃ x y, ∃ h : [x, y].length = 2, a = ⟨[x, y], h⟩ := by
  obtain ⟨l, hl⟩ := a
  match l, hl with
  | [x, y], hl => exact ⟨x, y, hl, rfl⟩

/-- Inside the array a write is defined and the written slot then holds the
value. -/
theorem port_array.write_read (a : port_array) (slot : Int) (v : Nat)
    (hs : slot = 0 ∨ slot = 1) :
    ∃ b, a.write slot v = some b ∧ b.elems[slot.toNat]? = some v ∧ b.read slot = some v := by
  obtain ⟨x, y, h, rfl⟩ := a.eq_pair
  rcases hs with rfl | rfl <;> simp [port_array.write, port_array.read]

/-- Inside the array a read is defined and returns the element of the slot. -/
theorem port_array.read_stored (a : port_array) (slot : Int) (hs : slot = 0 ∨ slot = 1) :
    ∃ w, a.elems[slot.toNat]? = some w ∧ a.read slot = some w := by
  obtain ⟨x, y, h, rfl⟩ := a.eq_pair
  rcases hs with rfl | rfl <;> simp [port_array.read]

/-- A write to one slot leaves the other slot as it was. -/
theorem port_array.write_read_other (a : port_array) (i j : Int) (v : Nat)
    (hi : i = 0 ∨ i = 1) (hj : j = 0 ∨ j = 1) (hij : i ≠ j) :
    ∃ b w, a.write i v = some b ∧ a.read j = some w ∧ b.read j = some w := by
  obtain ⟨x, y, h, rfl⟩ := a.eq_pair
  rcases hi with rfl | rfl <;> rcases hj with rfl | rfl <;>
    first
      | exact absurd rfl hij
      | simp [port_array.write, port_array.read]

/-! ## The setter of a port slot -/

/-- For a slot inside the array `set_addr_port` is defined; the written slot
then holds the value and every other member of the rule address is as before. -/
theorem set_addr_port_defined (addr : pf_rule_addr) (slot : Int) (v : Nat)
    (hs : slot = 0 ∨ slot = 1) :
    ∃ a, set_addr_port addr slot v = some a ∧
      a.xport.range.port.elems[slot.toNat]? = some v ∧
      get_addr_port a slot = some v ∧
      a.xport.range.op = addr.xport.range.op ∧ a.addr = addr.addr ∧ a.neg = addr.neg := by
  obtain ⟨b, hb, hv, hr⟩ := addr.xport.range.port.write_read slot v hs
  refine ⟨{ addr with xport := { addr.xport with range := { addr.xport.range with port := b } } },
    ?_, hv, hr, rfl, rfl, rfl⟩
  simp only [set_addr_port, hb, Option.map_some']

/-- A write to slot `i` is defined and leaves the value read from the other
slot `j` as it was. -/
theorem set_addr_port_other (addr : pf_rule_addr) (i j : Int) (v : Nat)
    (hi : i = 0 ∨ i = 1) (hj : j = 0 ∨ j = 1) (hij : i ≠ j) :
    ∃ a w, set_addr_port addr i v = some a ∧
      get_addr_port addr j = some w ∧ get_addr_port a j = some w := by
  obtain ⟨b, w, hb, hw, hbw⟩ := addr.xport.range.port.write_read_other i j v hi hj hij
  refine ⟨{ addr with xport := { addr.xport with range := { addr.xport.range with port := b } } },
    w, ?_, hw, hbw⟩
  simp only [set_addr_port, hb, Option.map_some']

/-! ## Decimal text of an octet -/

/-- The decimal text of an octet has at most three digits. -/
theorem octet_digits_length (n : Nat) (h : n < 256) : (Nat.toDigits 10 n).length ≤ 3 := by
  interval_cases n <;> decide

/-! ## Theorems -/

/-- C1: for every 16-bit value `v` and either host byte order,
`ntohs_f (htons_f v) = v` and `htons_f (ntohs_f v) = v`; both conversions are
total functions and they are inverse to each other. -/
theorem ntohs_f_htons_f_inverse (host : byte_order) (v : Nat) (hv : v < 65536) :
    ntohs_f host (htons_f host v) = v ∧ htons_f host (ntohs_f host v) = v := by
  cases host
  · exact ⟨rfl, rfl⟩
  · exact ⟨swap_bytes_involutive v hv, swap_bytes_involutive v hv⟩

/-- Witness of C1 on a little-endian host at port 8080. -/
theorem ntohs_f_htons_f_inverse_witness :
    8080 < 65536 ∧
      (ntohs_f byte_order.LITTLE_ENDIAN (htons_f byte_order.LITTLE_ENDIAN 8080) = 8080 ∧
        htons_f byte_order.LITTLE_ENDIAN (ntohs_f byte_order.LITTLE_ENDIAN 8080) = 8080) :=
  ⟨by decide, ntohs_f_htons_f_inverse byte_order.LITTLE_ENDIAN 8080 (by decide)⟩

/-- C2, as stated, fails on a little-endian host: writing host port 8080 into
slot 0 of a zero-initialised rule address leaves 8080 in the slot, whereas
`htons_f 8080` is 36895 there. -/
theorem set_addr_port_not_wire_order :
    (set_addr_port pf_rule_addr.zero 0 8080).bind
        (fun a => a.xport.range.port.elems[0]?) = some 8080 ∧
      htons_f byte_order.LITTLE_ENDIAN 8080 = 36895 ∧
      (set_addr_port pf_rule_addr.zero 0 8080).bind
        (fun a => a.xport.range.port.elems[0]?) ≠
          some (htons_f byte_order.LITTLE_ENDIAN 8080) := by
  decide

/-- C2, amended: for every rule address, every slot in {0,1} and every value,
`set_addr_port` is defined and the slot then holds the argument itself, with
no byte-order conversion; so the slot holds `htons_f hostPort` when the caller
passes `htons_f hostPort`, and on a big-endian host the stored argument
coincides with its `htons_f` encoding. -/
theorem set_addr_port_stores_argument (host : byte_order) (addr : pf_rule_addr)
    (slot : Int) (hostPort : Nat) (hs : slot = 0 ∨ slot = 1) :
    (∃ a, set_addr_port addr slot hostPort = some a ∧
        a.xport.range.port.elems[slot.toNat]? = some hostPort ∧
        a.xport.range.port.elems[slot.toNat]? =
          some (htons_f byte_order.BIG_ENDIAN hostPort)) ∧
      (∃ a, set_addr_port addr slot (htons_f host hostPort) = some a ∧
        a.xport.range.port.elems[slot.toNat]? = some (htons_f host hostPort)) := by
  obtain ⟨a, ha, hv, _⟩ := set_addr_port_defined addr slot hostPort hs
  obtain ⟨c, hc, hw, _⟩ := set_addr_port_defined addr slot (htons_f host hostPort) hs
  exact ⟨⟨a, ha, hv, hv⟩, ⟨c, hc, hw⟩⟩

/-- Witness of the amended C2: slot 1 of a zero-initialised rule address, port
8080, little-endian host. -/
theorem set_addr_port_stores_argument_witness :
    ((1 : Int) = 0 ∨ (1 : Int) = 1) ∧
      ((∃ a, set_addr_port pf_rule_addr.zero 1 8080 = some a ∧
          a.xport.range.port.elems[(1 : Int).toNat]? = some 8080 ∧
          a.xport.range.port.elems[(1 : Int).toNat]? =
            some (htons_f byte_order.BIG_ENDIAN 8080)) ∧
        (∃ a, set_addr_port pf_rule_addr.zero 1
            (htons_f byte_order.LITTLE_ENDIAN 8080) = some a ∧
          a.xport.range.port.elems[(1 : Int).toNat]? =
            some (htons_f byte_order.LITTLE_ENDIAN 8080))) :=
  ⟨by decide,
    set_addr_port_stores_argument byte_order.LITTLE_ENDIAN pf_rule_addr.zero 1 8080
      (by decide)⟩

/-- C3, as stated, fails on a little-endian host: a rule address whose slot 0
holds the wire-order value 8080 makes `get_addr_port` return 8080, whereas
`ntohs_f 8080` is 36895 there. -/
theorem get_addr_port_not_host_order :
    (pf_rule_addr.mk 0 ⟨⟨⟨[8080, 0], rfl⟩, 0⟩⟩ 0).xport.range.port.elems[0]? = some 8080 ∧
      get_addr_port (pf_rule_addr.mk 0 ⟨⟨⟨[8080, 0], rfl⟩, 0⟩⟩ 0) 0 = some 8080 ∧
      ntohs_f byte_order.LITTLE_ENDIAN 8080 = 36895 ∧
      get_addr_port (pf_rule_addr.mk 0 ⟨⟨⟨[8080, 0], rfl⟩, 0⟩⟩ 0) 0 ≠
        some (ntohs_f byte_order.LITTLE_ENDIAN 8080) := by
  decide

/-- C3, amended: for every rule address and every slot in {0,1},
`get_addr_port` is defined and returns the value `w` stored in the slot
itself, with no byte-order conversion; on a big-endian host that value
coincides with `ntohs_f w`. -/
theorem get_addr_port_returns_stored (addr : pf_rule_addr) (slot : Int)
    (hs : slot = 0 ∨ slot = 1) :
    ∃ w, addr.xport.range.port.elems[slot.toNat]? = some w ∧
      get_addr_port addr slot = some w ∧
      get_addr_port addr slot = some (ntohs_f byte_order.BIG_ENDIAN w) := by
  obtain ⟨w, hw, hr⟩ := addr.xport.range.port.read_stored slot hs
  exact ⟨w, hw, hr, hr⟩

/-- Witness of the amended C3: slot 0 of a zero-initialised rule address. -/
theorem get_addr_port_returns_stored_witness :
    ((0 : Int) = 0 ∨ (0 : Int) = 1) ∧
      ∃ w, pf_rule_addr.zero.xport.range.port.elems[(0 : Int).toNat]? = some w ∧
        get_addr_port pf_rule_addr.zero 0 = some w ∧
        get_addr_port pf_rule_addr.zero 0 = some (ntohs_f byte_order.BIG_ENDIAN w) :=
  ⟨by decide, get_addr_port_returns_stored pf_rule_addr.zero 0 (by decide)⟩

/-- C4, as stated, fails on a little-endian host: after
`set_natlook_sport q 54321` the raw field `sxport.port` is 54321, not
`htons_f 54321 = 12756`; after `set_natlook_dport q 80` the raw field
`dxport.port` is 80, not `htons_f 80 = 20480`. -/
theorem set_natlook_ports_not_wire_order :
    (set_natlook_sport pfioc_natlook.zero 54321).sxport.port = 54321 ∧
      htons_f byte_order.LITTLE_ENDIAN 54321 = 12756 ∧
      (set_natlook_dport pfioc_natlook.zero 80).dxport.port = 80 ∧
      htons_f byte_order.LITTLE_ENDIAN 80 = 20480 := by
  decide

/-- C4, amended: for every NAT-lookup structure and every value,
`set_natlook_sport` leaves the argument itself in `sxport.port` and
`set_natlook_dport` leaves it in `dxport.port`, with no byte-order
conversion; so the field holds `htons_f hostPort` when the caller passes
`htons_f hostPort`, and on a big-endian host the stored argument coincides
with its `htons_f` encoding. -/
theorem set_natlook_ports_store_argument (host : byte_order) (pnl : pfioc_natlook)
    (hostPort : Nat) :
    (set_natlook_sport pnl hostPort).sxport.port = hostPort ∧
      (set_natlook_dport pnl hostPort).dxport.port = hostPort ∧
      (set_natlook_sport pnl (htons_f host hostPort)).sxport.port = htons_f host hostPort ∧
      (set_natlook_dport pnl (htons_f host hostPort)).dxport.port = htons_f host hostPort ∧
      (set_natlook_sport pnl hostPort).sxport.port =
        htons_f byte_order.BIG_ENDIAN hostPort ∧
      (set_natlook_dport pnl hostPort).dxport.port =
        htons_f byte_order.BIG_ENDIAN hostPort :=
  ⟨rfl, rfl, rfl, rfl, rfl, rfl⟩

/-- C5, as stated, fails on a little-endian host: a redirect field holding the
wire-order value 8080 is returned as 8080, not as `ntohs_f 8080 = 36895`; and
in the scenario (source port 54321, destination port 80, redirect field filled
with `htons_f 8081 = 37151`) `get_natlook_rdport` returns 37151, not 8081. -/
theorem get_natlook_rdport_not_host_order :
    get_natlook_rdport (kernel_fill_rdport pfioc_natlook.zero 8080) = 8080 ∧
      ntohs_f byte_order.LITTLE_ENDIAN 8080 = 36895 ∧
      get_natlook_rdport
        (kernel_fill_rdport
          (set_natlook_dport (set_natlook_sport pfioc_natlook.zero 54321) 80)
          (htons_f byte_order.LITTLE_ENDIAN 8081)) = 37151 ∧
      get_natlook_rdport
        (kernel_fill_rdport
          (set_natlook_dport (set_natlook_sport pfioc_natlook.zero 54321) 80)
          (htons_f byte_order.LITTLE_ENDIAN 8081)) ≠ 8081 := by
  decide

/-- C5, amended: for every NAT-lookup structure whose redirect field
`rdxport.port` holds a wire-order value `v`, `get_natlook_rdport` returns `v`
itself, with no byte-order conversion (on a big-endian host this is
`ntohs_f v`); in the scenario (source port 54321, destination port 80,
redirect field filled with `htons_f 8081`) it returns `htons_f 8081`, from
which `ntohs_f` gives 8081, and on a big-endian host it returns 8081. -/
theorem get_natlook_rdport_returns_stored (host : byte_order) (pnl : pfioc_natlook)
    (v : Nat) :
    get_natlook_rdport pnl = pnl.rdxport.port ∧
      get_natlook_rdport (kernel_fill_rdport pnl v) = v ∧
      get_natlook_rdport (kernel_fill_rdport pnl v) = ntohs_f byte_order.BIG_ENDIAN v ∧
      get_natlook_rdport
        (kernel_fill_rdport
          (set_natlook_dport (set_natlook_sport pfioc_natlook.zero 54321) 80)
          (htons_f host 8081)) = htons_f host 8081 ∧
      ntohs_f host
        (get_natlook_rdport
          (kernel_fill_rdport
            (set_natlook_dport (set_natlook_sport pfioc_natlook.zero 54321) 80)
            (htons_f host 8081))) = 8081 ∧
      get_natlook_rdport
        (kernel_fill_rdport
          (set_natlook_dport (set_natlook_sport pfioc_natlook.zero 54321) 80)
          (htons_f byte_order.BIG_ENDIAN 8081)) = 8081 := by
  refine ⟨rfl, rfl, rfl, rfl, ?_, rfl⟩
  cases host <;> decide

/-- C6: for every rule address, every slot in {0,1} and every port value,
reading the slot after `set_addr_port` wrote `hostPort` into it returns
`hostPort`. -/
theorem get_addr_port_set_addr_port (addr : pf_rule_addr) (slot : Int) (hostPort : Nat)
    (hs : slot = 0 ∨ slot = 1) :
    (set_addr_port addr slot hostPort).bind (fun a => get_addr_port a slot)
      = some hostPort := by
  obtain ⟨a, ha, _, hg, _⟩ := set_addr_port_defined addr slot hostPort hs
  rw [ha, Option.some_bind]
  exact hg

/-- Witness of C6: slot 1 of a zero-initialised rule address, port 65535. -/
theorem get_addr_port_set_addr_port_witness :
    ((1 : Int) = 0 ∨ (1 : Int) = 1) ∧
      (set_addr_port pf_rule_addr.zero 1 65535).bind (fun a => get_addr_port a 1)
        = some 65535 :=
  ⟨by decide, get_addr_port_set_addr_port pf_rule_addr.zero 1 65535 (by decide)⟩

/-- C7: for every rule address, distinct slots `i`, `j` in {0,1} and every
value `p`, `set_addr_port addr i p` is defined and `get_addr_port` of slot `j`
returns the same value before and after the write. -/
theorem set_addr_port_preserves_other_slot (addr : pf_rule_addr) (i j : Int) (p : Nat)
    (hi : i = 0 ∨ i = 1) (hj : j = 0 ∨ j = 1) (hij : i ≠ j) :
    ∃ a w, set_addr_port addr i p = some a ∧
      get_addr_port addr j = some w ∧ get_addr_port a j = some w ∧
      a.xport.range.port.elems[j.toNat]? = addr.xport.range.port.elems[j.toNat]? := by
  obtain ⟨a, w, ha, hw, haw⟩ := set_addr_port_other addr i j p hi hj hij
  refine ⟨a, w, ha, hw, haw, ?_⟩
  have hneg : ¬ j < 0 := by rcases hj with rfl | rfl <;> decide
  simp only [get_addr_port, port_array.read, if_neg hneg] at hw haw
  rw [hw, haw]

/-- Witness of C7: writing slot 0 of a rule address whose slots hold 7 and 9
leaves slot 1 at 9. -/
theorem set_addr_port_preserves_other_slot_witness :
    ((0 : Int) = 0 ∨ (0 : Int) = 1) ∧ ((1 : Int) = 0 ∨ (1 : Int) = 1) ∧ (0 : Int) ≠ 1 ∧
      ∃ a w, set_addr_port (pf_rule_addr.mk 0 ⟨⟨⟨[7, 9], rfl⟩, 0⟩⟩ 0) 0 443 = some a ∧
        get_addr_port (pf_rule_addr.mk 0 ⟨⟨⟨[7, 9], rfl⟩, 0⟩⟩ 0) 1 = some w ∧
        get_addr_port a 1 = some w ∧
        a.xport.range.port.elems[(1 : Int).toNat]? =
          (pf_rule_addr.mk 0 ⟨⟨⟨[7, 9], rfl⟩, 0⟩⟩ 0).xport.range.port.elems[(1 : Int).toNat]? :=
  ⟨by decide, by decide, by decide,
    set_addr_port_preserves_other_slot (pf_rule_addr.mk 0 ⟨⟨⟨[7, 9], rfl⟩, 0⟩⟩ 0) 0 1 443
      (by decide) (by decide) (by decide)⟩

/-- C8: for every rule address and every byte value `b`,
`get_addr_port_op (set_addr_port_op addr b) = b`; the operator member holds
`b` itself, whatever the code is. -/
theorem get_addr_port_op_set_addr_port_op (addr : pf_rule_addr) (b : Nat) :
    get_addr_port_op (set_addr_port_op addr b) = b ∧
      (set_addr_port_op addr b).xport.range.op = b :=
  ⟨rfl, rfl⟩

/-- C9: on a big-endian host `htons_f v = v` and `ntohs_f v = v` for every
16-bit `v`; on a little-endian host `htons_f v = ntohs_f v =
(v % 256) * 256 + v / 256` for every 16-bit `v`, and the result is again a
16-bit value. -/
theorem htons_f_ntohs_f_value (v : Nat) (hv : v < 65536) :
    htons_f byte_order.BIG_ENDIAN v = v ∧ ntohs_f byte_order.BIG_ENDIAN v = v ∧
      htons_f byte_order.LITTLE_ENDIAN v = (v % 256) * 256 + v / 256 ∧
      ntohs_f byte_order.LITTLE_ENDIAN v = (v % 256) * 256 + v / 256 ∧
      htons_f byte_order.LITTLE_ENDIAN v < 65536 ∧
      ntohs_f byte_order.LITTLE_ENDIAN v < 65536 := by
  have hhi : v / 256 % 256 = v / 256 := Nat.mod_eq_of_lt (by omega)
  simp only [htons_f, ntohs_f, htons, ntohs, hhi, true_and]
  omega

/-- Witness of C9 at port 8080 (0x1F90, exchanged 0x901F). -/
theorem htons_f_ntohs_f_value_witness :
    8080 < 65536 ∧
      (htons_f byte_order.BIG_ENDIAN 8080 = 8080 ∧ ntohs_f byte_order.BIG_ENDIAN 8080 = 8080 ∧
        htons_f byte_order.LITTLE_ENDIAN 8080 = (8080 % 256) * 256 + 8080 / 256 ∧
        ntohs_f byte_order.LITTLE_ENDIAN 8080 = (8080 % 256) * 256 + 8080 / 256 ∧
        htons_f byte_order.LITTLE_ENDIAN 8080 < 65536 ∧
        ntohs_f byte_order.LITTLE_ENDIAN 8080 < 65536) :=
  ⟨by decide, htons_f_ntohs_f_value 8080 (by decide)⟩

/-- C10: for every rule address, operator byte `op` and port `p`, after
`set_addr_port_op addr op` followed by `set_addr_port addr 0 p` the operator
read back is `op`, slot 0 reads `p` and slot 1 reads what it read before
(zero for a zero-initialised rule address); writing a port slot (either one)
leaves the operator byte as it was, and writing the operator leaves both port
slots as they were. -/
theorem set_addr_port_op_then_set_addr_port (addr : pf_rule_addr) (op p : Nat)
    (slot : Int) (hs : slot = 0 ∨ slot = 1) :
    (∃ a w, set_addr_port (set_addr_port_op addr op) 0 p = some a ∧
        get_addr_port_op a = op ∧ get_addr_port a 0 = some p ∧
        get_addr_port addr 1 = some w ∧ get_addr_port a 1 = some w) ∧
      (∃ z, set_addr_port (set_addr_port_op pf_rule_addr.zero op) 0 p = some z ∧
        get_addr_port_op z = op ∧ get_addr_port z 0 = some p ∧
        get_addr_port z 1 = some 0) ∧
      (∃ a, set_addr_port addr slot p = some a ∧
        get_addr_port_op a = get_addr_port_op addr) ∧
      get_addr_port (set_addr_port_op addr op) 0 = get_addr_port addr 0 ∧
      get_addr_port (set_addr_port_op addr op) 1 = get_addr_port addr 1 := by
  have frame : ∀ r : pf_rule_addr, ∃ a w,
      set_addr_port (set_addr_port_op r op) 0 p = some a ∧
        get_addr_port_op a = op ∧ get_addr_port a 0 = some p ∧
        get_addr_port r 1 = some w ∧ get_addr_port a 1 = some w := by
    intro r
    obtain ⟨a, ha, _, hg, hop, _⟩ :=
      set_addr_port_defined (set_addr_port_op r op) 0 p (Or.inl rfl)
    obtain ⟨a2, w, ha2, hw, haw⟩ :=
      set_addr_port_other (set_addr_port_op r op) 0 1 p (Or.inl rfl) (Or.inr rfl)
        (by decide)
    have hEq : a2 = a := Option.some.inj (ha2.symm.trans ha)
    subst hEq
    exact ⟨a2, w, ha, hop, hg, hw, haw⟩
  refine ⟨frame addr, ?_, ?_, rfl, rfl⟩
  · obtain ⟨z, w, hz, hzop, hz0, hw, hz1⟩ := frame pf_rule_addr.zero
    have hw0 : w = 0 := (Option.some.inj hw).symm
    subst hw0
    exact ⟨z, hz, hzop, hz0, hz1⟩
  · obtain ⟨a, ha, _, _, hop, _⟩ := set_addr_port_defined addr slot p hs
    exact ⟨a, ha, hop⟩

/-- Witness of C10: a zero-initialised rule address, operator `PF_OP_EQ`,
port 8080. -/
theorem set_addr_port_op_then_set_addr_port_witness :
    ((0 : Int) = 0 ∨ (0 : Int) = 1) ∧
      ((∃ a w, set_addr_port (set_addr_port_op pf_rule_addr.zero PF_OP_EQ) 0 8080 = some a ∧
          get_addr_port_op a = PF_OP_EQ ∧ get_addr_port a 0 = some 8080 ∧
          get_addr_port pf_rule_addr.zero 1 = some w ∧ get_addr_port a 1 = some w) ∧
        (∃ z, set_addr_port (set_addr_port_op pf_rule_addr.zero PF_OP_EQ) 0 8080 = some z ∧
          get_addr_port_op z = PF_OP_EQ ∧ get_addr_port z 0 = some 8080 ∧
          get_addr_port z 1 = some 0) ∧
        (∃ a, set_addr_port pf_rule_addr.zero 0 8080 = some a ∧
          get_addr_port_op a = get_addr_port_op pf_rule_addr.zero) ∧
        get_addr_port (set_addr_port_op pf_rule_addr.zero PF_OP_EQ) 0 =
          get_addr_port pf_rule_addr.zero 0 ∧
        get_addr_port (set_addr_port_op pf_rule_addr.zero PF_OP_EQ) 1 =
          get_addr_port pf_rule_addr.zero 1) :=
  ⟨by decide,
    set_addr_port_op_then_set_addr_port pf_rule_addr.zero PF_OP_EQ 8080 0 (by decide)⟩

/-- C11: for every NAT-lookup structure `q` and all ports `s`, `d`,
`get_natlook_rdport` applied after `set_natlook_sport q s` and
`set_natlook_dport q d`, with no fill of the redirect field in between,
returns the value `rdxport.port` held in `q` beforehand (zero for a
zero-initialised structure); the getter is a total function and neither setter
alters the redirect field. -/
theorem get_natlook_rdport_before_fill (q : pfioc_natlook) (s d : Nat) :
    get_natlook_rdport (set_natlook_dport (set_natlook_sport q s) d) = q.rdxport.port ∧
      get_natlook_rdport (set_natlook_dport (set_natlook_sport q s) d)
        = get_natlook_rdport q ∧
      get_natlook_rdport (set_natlook_dport (set_natlook_sport pfioc_natlook.zero s) d) = 0 ∧
      (set_natlook_sport q s).rdxport = q.rdxport ∧
      (set_natlook_dport q d).rdxport = q.rdxport :=
  ⟨rfl, rfl, rfl, rfl, rfl⟩

/-- C12: with the port range a two-element array and the subscript total, the
access of `set_addr_port` and of `get_addr_port` is inside the array exactly
when the index is 0 or 1, and outside it exactly when the index is negative or
at least 2: the index reaches the subscript unchanged. -/
theorem addr_port_access_in_bounds_iff (addr : pf_rule_addr) (index : Int) (value : Nat) :
    ((set_addr_port addr index value).isSome = true ↔ (index = 0 ∨ index = 1)) ∧
      ((get_addr_port addr index).isSome = true ↔ (index = 0 ∨ index = 1)) ∧
      (set_addr_port addr index value = none ↔ (index < 0 ∨ 2 ≤ index)) ∧
      (get_addr_port addr index = none ↔ (index < 0 ∨ 2 ≤ index)) := by
  have hlen : addr.xport.range.port.elems.length = 2 := addr.xport.range.port.size_eq
  have hset : (set_addr_port addr index value).isSome = true ↔ (index = 0 ∨ index = 1) := by
    simp only [set_addr_port, Option.isSome_map', port_array.write, hlen]
    split
    · rename_i h
      simp only [Option.isSome_some, true_iff]
      omega
    · rename_i h
      simp only [Option.isSome_none, Bool.false_eq_true, false_iff]
      omega
  have hget : (get_addr_port addr index).isSome = true ↔ (index = 0 ∨ index = 1) := by
    simp only [get_addr_port, port_array.read]
    split
    · rename_i h
      simp only [Option.isSome_none, Bool.false_eq_true, false_iff]
      omega
    · rename_i h
      rw [Option.isSome_iff_exists]
      constructor
      · rintro ⟨w, hw⟩
        have hlt := (List.getElem?_eq_some.mp hw).1
        omega
      · intro hi
        have hlt : index.toNat < addr.xport.range.port.elems.length := by omega
        exact ⟨_, List.getElem?_eq_getElem hlt⟩
  refine ⟨hset, hget, ?_, ?_⟩
  · rw [← Option.not_isSome_iff_eq_none, hset]
    omega
  · rw [← Option.not_isSome_iff_eq_none, hget]
    omega

/-- C13: the capacity of `struct pton_addr.value` is `INET_ADDRSTRLEN = 16`
characters; for all octets `a`, `b`, `c`, `d` in 0..255 the text `a.b.c.d` has
length at most 15, so the text and a terminating NUL fit in the buffer, and
`255.255.255.255` attains the bound: length 15, and 15 + 1 = 16. -/
theorem dotted_decimal_fits_pton_addr (addr : pton_addr) (a b c d : Nat)
    (ha : a < 256) (hb : b < 256) (hc : c < 256) (hd : d < 256) :
    (get_pton_addr addr).length = INET_ADDRSTRLEN ∧ INET_ADDRSTRLEN = 16 ∧
      (dotted_decimal a b c d).length ≤ 15 ∧
      (dotted_decimal a b c d).length + 1 ≤ (get_pton_addr addr).length ∧
      (dotted_decimal 255 255 255 255).length = 15 ∧
      (dotted_decimal 255 255 255 255).length + 1 = (get_pton_addr addr).length := by
  have h1 := octet_digits_length a ha
  have h2 := octet_digits_length b hb
  have h3 := octet_digits_length c hc
  have h4 := octet_digits_length d hd
  have hcap : (get_pton_addr addr).length = 16 := addr.size_eq
  have hlen : (dotted_decimal a b c d).length =
      (Nat.toDigits 10 a).length + (Nat.toDigits 10 b).length
        + (Nat.toDigits 10 c).length + (Nat.toDigits 10 d).length + 3 := by
    simp only [dotted_decimal, List.length_append, List.length_cons]
    omega
  have hmax : (dotted_decimal 255 255 255 255).length = 15 := by decide
  refine ⟨addr.size_eq, rfl, ?_, ?_, hmax, ?_⟩ <;> omega

/-- Witness of C13: the loopback address 127.0.0.1 and an all-NUL buffer. -/
theorem dotted_decimal_fits_pton_addr_witness :
    127 < 256 ∧ 0 < 256 ∧ 1 < 256 ∧
      ((get_pton_addr ⟨List.replicate 16 (Char.ofNat 0), rfl⟩).length = INET_ADDRSTRLEN ∧
        INET_ADDRSTRLEN = 16 ∧
        (dotted_decimal 127 0 0 1).length ≤ 15 ∧
        (dotted_decimal 127 0 0 1).length + 1 ≤
          (get_pton_addr ⟨List.replicate 16 (Char.ofNat 0), rfl⟩).length ∧
        (dotted_decimal 255 255 255 255).length = 15 ∧
        (dotted_decimal 255 255 255 255).length + 1 =
          (get_pton_addr ⟨List.replicate 16 (Char.ofNat 0), rfl⟩).length) :=
  ⟨by decide, by decide, by decide,
    dotted_decimal_fits_pton_addr ⟨List.replicate 16 (Char.ofNat 0), rfl⟩ 127 0 0 1
      (by decide) (by decide) (by decide) (by decide)⟩

/-- C14: on each slot `i` in {0,1} the pair `set_addr_port` / `get_addr_port`
obeys the lens laws: writing back the value just read gives the same rule
address, a second write to the slot overrides the first, and a write to slot 0
commutes with a write to slot 1. -/
theorem set_addr_port_lens_laws (addr : pf_rule_addr) (i : Int) (a b : Nat)
    (hi : i = 0 ∨ i = 1) :
    (∃ w, get_addr_port addr i = some w ∧ set_addr_port addr i w = some addr) ∧
      (∃ r, set_addr_port addr i b = some r ∧
        (set_addr_port addr i a).bind (fun x => set_addr_port x i b) = some r) ∧
      (∃ r, (set_addr_port addr 0 a).bind (fun x => set_addr_port x 1 b) = some r ∧
        (set_addr_port addr 1 b).bind (fun x => set_addr_port x 0 a) = some r) := by
  obtain ⟨adr, ⟨⟨p, op⟩⟩, neg⟩ := addr
  obtain ⟨x, y, h, rfl⟩ := p.eq_pair
  rcases hi with rfl | rfl <;>
    simp [set_addr_port, get_addr_port, port_array.write, port_array.read]

/-- Witness of C14: slot 1 of a rule address whose slots hold 7 and 9. -/
theorem set_addr_port_lens_laws_witness :
    ((1 : Int) = 0 ∨ (1 : Int) = 1) ∧
      ((∃ w, get_addr_port (pf_rule_addr.mk 3 ⟨⟨⟨[7, 9], rfl⟩, 2⟩⟩ 1) 1 = some w ∧
          set_addr_port (pf_rule_addr.mk 3 ⟨⟨⟨[7, 9], rfl⟩, 2⟩⟩ 1) 1 w =
            some (pf_rule_addr.mk 3 ⟨⟨⟨[7, 9], rfl⟩, 2⟩⟩ 1)) ∧
        (∃ r, set_addr_port (pf_rule_addr.mk 3 ⟨⟨⟨[7, 9], rfl⟩, 2⟩⟩ 1) 1 443 = some r ∧
          (set_addr_port (pf_rule_addr.mk 3 ⟨⟨⟨[7, 9], rfl⟩, 2⟩⟩ 1) 1 80).bind
            (fun x => set_addr_port x 1 443) = some r) ∧
        (∃ r, (set_addr_port (pf_rule_addr.mk 3 ⟨⟨⟨[7, 9], rfl⟩, 2⟩⟩ 1) 0 80).bind
            (fun x => set_addr_port x 1 443) = some r ∧
          (set_addr_port (pf_rule_addr.mk 3 ⟨⟨⟨[7, 9], rfl⟩, 2⟩⟩ 1) 1 443).bind
            (fun x => set_addr_port x 0 80) = some r)) :=
  ⟨by decide,
    set_addr_port_lens_laws (pf_rule_addr.mk 3 ⟨⟨⟨[7, 9], rfl⟩, 2⟩⟩ 1) 1 80 443 (by decide)⟩

/-- C15: for every NAT-lookup structure `q` and all ports `s`, `d`,
`set_natlook_sport` changes `sxport.port` only and `set_natlook_dport` changes
`dxport.port` only: the two setters commute and every other member of `q`
(addresses, redirect members, protocol members) is as before after either. -/
theorem set_natlook_ports_frame (q : pfioc_natlook) (s d : Nat) :
    set_natlook_dport (set_natlook_sport q s) d
        = set_natlook_sport (set_natlook_dport q d) s ∧
      set_natlook_sport q s = { q with sxport := ⟨s⟩ } ∧
      set_natlook_dport q d = { q with dxport := ⟨d⟩ } ∧
      ((set_natlook_sport q s).saddr = q.saddr ∧ (set_natlook_sport q s).daddr = q.daddr ∧
        (set_natlook_sport q s).rsaddr = q.rsaddr ∧
        (set_natlook_sport q s).rdaddr = q.rdaddr ∧
        (set_natlook_sport q s).dxport = q.dxport ∧
        (set_natlook_sport q s).rsxport = q.rsxport ∧
        (set_natlook_sport q s).rdxport = q.rdxport ∧
        (set_natlook_sport q s).af = q.af ∧ (set_natlook_sport q s).proto = q.proto ∧
        (set_natlook_sport q s).direction = q.direction) ∧
      ((set_natlook_dport q d).saddr = q.saddr ∧ (set_natlook_dport q d).daddr = q.daddr ∧
        (set_natlook_dport q d).rsaddr = q.rsaddr ∧
        (set_natlook_dport q d).rdaddr = q.rdaddr ∧
        (set_natlook_dport q d).sxport = q.sxport ∧
        (set_natlook_dport q d).rsxport = q.rsxport ∧
        (set_natlook_dport q d).rdxport = q.rdxport ∧
        (set_natlook_dport q d).af = q.af ∧ (set_natlook_dport q d).proto = q.proto ∧
        (set_natlook_dport q d).direction = q.direction) :=
  ⟨rfl, rfl, rfl, ⟨rfl, rfl, rfl, rfl, rfl, rfl, rfl, rfl, rfl, rfl⟩,
    ⟨rfl, rfl, rfl, rfl, rfl, rfl, rfl, rfl, rfl, rfl⟩⟩

end Pf
